import Mathlib

/-!
Verification of the llama-cpp-sys-2 build orchestrator (`build.rs`).

The build script is shallowly embedded: script texts and target triples are
`List Char`, Rust's `str::replace` becomes `replaceAll`, Rust's
`str::contains` becomes `containsSub`, filesystem scans become functions on
lists of file names, and the sequence of `config.define` calls becomes a
function producing an ordered association list.  Host-conditional code
(`cfg!(windows)` / `cfg!(target_os = "macos")` inside the build script) is
embedded in its Linux-host branch throughout.
-/

/-- Embedding of Rust `str::contains` for substring search: `containsSub s p`
is true when `p` occurs as a contiguous substring of `s`. -/
def containsSub (s p : List Char) : Bool :=
  p.isPrefixOf s ||
    match s with
    | [] => false
    | _ :: t => containsSub t p

/-- Fuel-indexed worker for `replaceAll`; the fuel is an upper bound on the
number of scan steps, consumed one per emitted character or match. -/
def replaceAllAux (p r : List Char) : Nat → List Char → List Char
  | _, [] => []
  | 0, s => s
  | Nat.succ fuel, c :: rest =>
    if !p.isEmpty && p.isPrefixOf (c :: rest) then
      r ++ replaceAllAux p r fuel ((c :: rest).drop p.length)
    else
      c :: replaceAllAux p r fuel rest

/-- Embedding of Rust `str::replace` for a non-empty pattern `p`: replaces
every non-overlapping occurrence of `p` in `s` by `r`, scanning left to
right.  (All patterns used by the build script are non-empty.) -/
def replaceAll (p r s : List Char) : List Char :=
  replaceAllAux p r s.length s

/-- The ordered rewrite-rule list of the ggml-config.cmake namespace patch,
from `build.rs` lines 643-666: specific `find_library` patterns first, then
the backend component tokens, then the quoted forms.  `ns` is the chosen
namespace (`ggml_llama` or `ggml_whisper` in the source). -/
def namespaceRules (ns : List Char) : List (List Char × List Char) :=
  let dq : Char := Char.ofNat 34
  let sq : Char := Char.ofNat 39
  [ ("find_library(GGML_BASE_LIBRARY ggml-base".toList,
     "find_library(GGML_BASE_LIBRARY ".toList ++ ns ++ "-base".toList),
    ("find_library(GGML_LIBRARY ggml".toList,
     "find_library(GGML_LIBRARY ".toList ++ ns),
    ("ggml-cpu".toList, ns ++ "-cpu".toList),
    ("ggml-cuda".toList, ns ++ "-cuda".toList),
    ("ggml-vulkan".toList, ns ++ "-vulkan".toList),
    ("ggml-metal".toList, ns ++ "-metal".toList),
    ([dq] ++ "ggml".toList ++ [dq], [dq] ++ ns ++ [dq]),
    ([sq] ++ "ggml".toList ++ [sq], [sq] ++ ns ++ [sq]),
    ([dq] ++ "ggml-base".toList ++ [dq], [dq] ++ ns ++ "-base".toList ++ [dq]),
    ([sq] ++ "ggml-base".toList ++ [sq], [sq] ++ ns ++ "-base".toList ++ [sq]) ]

/-- Apply an ordered list of literal replacement rules to a buffer, first
rule first, exactly as the chain of `patched.replace(...)` calls does. -/
def applyRules (rules : List (List Char × List Char)) (s : List Char) : List Char :=
  rules.foldl (fun acc pr => replaceAll pr.1 pr.2 acc) s

/-- The NamespaceRewriter's pure text transformation (`build.rs` 643-666). -/
def rewriteScript (ns s : List Char) : List Char :=
  applyRules (namespaceRules ns) s

/-- Write-back condition of the rewriter (`build.rs` 668): the patched file
is written only when its content differs from the original. -/
def writesBack (ns s : List Char) : Bool :=
  rewriteScript ns s ≠ s

/- ### TargetResolver (`build.rs` 8-23, 33-61) -/

/-- Windows ABI split of the target classifier. -/
inductive WindowsVariant where
  | msvc
  | other
deriving DecidableEq

/-- Apple platform split of the target classifier. -/
inductive AppleVariant where
  | macOS
  | other
deriving DecidableEq

/-- The closed set of operating-system classifications. -/
inductive TargetOs where
  | windows (v : WindowsVariant)
  | apple (v : AppleVariant)
  | linux
  | android
deriving DecidableEq

/-- Embedding of `parse_target_os` (`build.rs` 33-61): classifies a raw
target triple, in priority order, returning the triple itself on failure. -/
def parse_target_os (target : List Char) : Except (List Char) TargetOs :=
  if containsSub target "windows".toList then
    if "-windows-msvc".toList.isSuffixOf target then
      .ok (.windows .msvc)
    else
      .ok (.windows .other)
  else if containsSub target "apple".toList then
    if "-apple-darwin".toList.isSuffixOf target then
      .ok (.apple .macOS)
    else
      .ok (.apple .other)
  else if containsSub target "android".toList
      || target = "aarch64-linux-android".toList
      || target = "armv7-linux-androideabi".toList
      || target = "i686-linux-android".toList
      || target = "x86_64-linux-android".toList then
    .ok .android
  else if containsSub target "linux".toList then
    .ok .linux
  else
    .error target

/- ### Supporting lemmas for the rewriter -/

theorem containsSub_correct (s p : List Char) :
    containsSub s p = true ↔ p <:+: s := by
  induction s with
  | nil =>
    simp [containsSub, List.isPrefixOf_iff_prefix]
  | cons c t ih =>
    rw [containsSub]
    simp [ List.isPrefixOf_iff_prefix, ih, List.infix_cons_iff]

theorem containsSub_false_trans {s p g : List Char}
    (hg : containsSub p g = true) (hs : containsSub s g = false) :
    containsSub s p = false := by
  by_contra h
  have hp : containsSub s p = true := by
    cases hsp : containsSub s p with
    | false => exact absurd hsp h
    | true => rfl
  have : g <:+: s :=
    ((containsSub_correct p g).mp hg).trans ((containsSub_correct s p).mp hp)
  rw [(containsSub_correct s g).mpr this] at hs
  exact Bool.true_eq_false.mp hs

theorem replaceAllAux_of_not_contains {p r : List Char} :
    ∀ (fuel : Nat) (s : List Char), containsSub s p = false →
      replaceAllAux p r fuel s = s := by
  intro fuel
  induction fuel with
  | zero =>
    intro s _
    cases s <;> rfl
  | succ fuel ih =>
    intro s h
    cases s with
    | nil => rfl
    | cons c rest =>
      rw [containsSub] at h
      have h2 := Bool.or_eq_false_iff.mp h
      simp [replaceAllAux, h2.1, ih rest h2.2]

theorem replaceAll_of_not_contains {p r s : List Char}
    (h : containsSub s p = false) : replaceAll p r s = s :=
  replaceAllAux_of_not_contains s.length s h

theorem namespaceRules_contain_ggml (ns : List Char) (pr : List Char × List Char)
    (h : pr ∈ namespaceRules ns) : containsSub pr.1 "ggml".toList = true := by
  simp [namespaceRules] at h
  rcases h with h | h | h | h | h | h | h | h | h | h <;> subst h <;> rfl

theorem applyRules_of_not_contains_ggml (rules : List (List Char × List Char))
    (s : List Char) (hr : ∀ pr ∈ rules, containsSub pr.1 "ggml".toList = true)
    (hs : containsSub s "ggml".toList = false) : applyRules rules s = s := by
  induction rules with
  | nil => rfl
  | cons pr rest ih =>
    have h1 : replaceAll pr.1 pr.2 s = s :=
      replaceAll_of_not_contains
        (containsSub_false_trans (hr pr (List.mem_cons_self pr rest)) hs)
    simp only [applyRules, List.foldl_cons, h1]
    exact ih fun q hq => hr q (List.mem_cons_of_mem pr hq)

/- ### Claim theorems: NamespaceRewriter (C1, C6) and TargetResolver (C7) -/

/-- Claim C1: the NamespaceRewriter's replacement sequence is NOT idempotent.
On the script line `find_library(GGML_LIBRARY ggml` (the very pattern the
patch targets, with namespace `ggml_llama`), a second application matches the
unterminated rule `find_library(GGML_LIBRARY ggml` again inside the already
namespaced text and appends a second `_llama`, corrupting the script. -/
theorem c1_rewriter_not_idempotent :
    rewriteScript "ggml_llama".toList
        (rewriteScript "ggml_llama".toList
          "find_library(GGML_LIBRARY ggml\n".toList)
      ≠ rewriteScript "ggml_llama".toList
          "find_library(GGML_LIBRARY ggml\n".toList := by
  decide

/-- Claim C6: when the default library name `ggml` does not occur in the
input, the NamespaceRewriter leaves the script byte-identical, and the
write-back condition (content differs from the original) is false, so the
file is never rewritten. -/
theorem c6_rewriter_noop_without_ggml (ns s : List Char)
    (h : containsSub s "ggml".toList = false) :
    rewriteScript ns s = s ∧ writesBack ns s = false := by
  have hrw : rewriteScript ns s = s :=
    applyRules_of_not_contains_ggml (namespaceRules ns) s
      (namespaceRules_contain_ggml ns) h
  refine ⟨hrw, ?_⟩
  simp [writesBack, hrw]

/-- Witness for C6 at a concrete script with no occurrence of `ggml`. -/
theorem c6_rewriter_noop_without_ggml_witness :
    containsSub "set(LLAMA_VERSION 1)\n".toList "ggml".toList = false ∧
      rewriteScript "ggml_llama".toList "set(LLAMA_VERSION 1)\n".toList
          = "set(LLAMA_VERSION 1)\n".toList ∧
      writesBack "ggml_llama".toList "set(LLAMA_VERSION 1)\n".toList = false :=
  ⟨by decide,
    (c6_rewriter_noop_without_ggml "ggml_llama".toList
        "set(LLAMA_VERSION 1)\n".toList (by decide)).1,
    (c6_rewriter_noop_without_ggml "ggml_llama".toList
        "set(LLAMA_VERSION 1)\n".toList (by decide)).2⟩

/-- Claim C7: the classifier's Android arm does not actually cover the short
ABI aliases its own comment says it handles: the short alias `arm64-v8a`
contains none of the substring markers and is rejected as unsupported,
whereas the claim (and the comment at build.rs:54) says such aliases
classify as Android. -/
theorem c7_short_abi_alias_rejected :
    parse_target_os "arm64-v8a".toList = .error "arm64-v8a".toList := by
  rfl

/- ### ArtifactCollector (`build.rs` 73-118) and link-target filtering
(`build.rs` 1106-1120), embedded for a Linux build host. -/

/-- The portion of a file name strictly before its last dot, or `none` when
the name has no dot; mirrors the split Rust's `file_stem`/`extension` make.
A leading dot is not an extension separator (Rust semantics), which the
`some []` results encode. -/
def splitLastDot : List Char → Option (List Char)
  | [] => none
  | c :: rest =>
    match splitLastDot rest with
    | some st => some (c :: st)
    | none => if c = '.' then some [] else none

/-- Embedding of Rust `Path::file_stem` on a file name: the part before the
last dot, or the whole name if there is no dot or the dot is leading. -/
def fileStem (s : List Char) : List Char :=
  match splitLastDot s with
  | none => s
  | some [] => s
  | some st => st

/-- Embedding of Rust `Path::extension` on a file name: the part after the
last dot, or `none` if there is no dot or the dot is leading. -/
def extOf (s : List Char) : Option (List Char) :=
  match splitLastDot s with
  | none => none
  | some [] => none
  | some st => some (s.drop (st.length + 1))

/-- Strip the conventional `lib` prefix from a stem when present
(`build.rs` 101-102: `starts_with("lib")` then `strip_prefix("lib")`). -/
def stripLib (stem : List Char) : List Char :=
  if "lib".toList.isPrefixOf stem then stem.drop 3 else stem

/-- Per-file processing of `extract_lib_names` (`build.rs` 96-112): returns
the derived logical name and, when the file is an unprefixed `.a` archive,
the on-disk rename `(old, new)` it performs. -/
def processLib (name : List Char) : List Char × Option (List Char × List Char) :=
  let stem := fileStem name
  if "lib".toList.isPrefixOf stem then
    (stem.drop 3, none)
  else if extOf name = some ['a'] then
    (stem, some (name, "lib".toList ++ stem ++ ".a".toList))
  else
    (stem, none)

/-- Embedding of `extract_lib_names` (`build.rs` 73-118) on a Linux host:
`files` is the (alphabetically sorted, as `glob` yields it) listing of the
output tree's `lib*` directories; the glob pattern is `*.so` in dynamic mode
and `*.a` in static mode.  Returns the logical names in scan order together
with the renames performed on disk. -/
def extract_lib_names (files : List (List Char)) (build_shared_libs : Bool) :
    List (List Char) × List (List Char × List Char) :=
  let pat := if build_shared_libs then ".so".toList else ".a".toList
  let matched := files.filter fun f => pat.isSuffixOf f
  (matched.map fun f => (processLib f).1,
   matched.filterMap fun f => (processLib f).2)

/-- The reuse-mode filter on discovered link targets (`build.rs` 1111-1120):
when `use-shared-ggml` is enabled, drop every name starting with `ggml`. -/
def filterReuse (useSharedGgml : Bool) (libs : List (List Char)) : List (List Char) :=
  if useSharedGgml then libs.filter fun l => !("ggml".toList.isPrefixOf l) else libs

/-- Link-target derivation (`build.rs` 1106-1120): the `assert_ne!` aborts
when the raw discovered list is empty (modelled as `.error ()`), and only
then is the reuse filter applied. -/
def linkTargets (useSharedGgml : Bool) (libs : List (List Char)) :
    Except Unit (List (List Char)) :=
  if libs.length = 0 then .error () else .ok (filterReuse useSharedGgml libs)

/-- The reused library family as the claim words it: the configured base
name and its base/cpu/GPU-backend components.  This definition follows the
specification text, for comparison against the source's prefix filter. -/
def reusedFamily (base : List Char) : List (List Char) :=
  [base, base ++ "-base".toList, base ++ "-cpu".toList, base ++ "-cuda".toList,
   base ++ "-vulkan".toList, base ++ "-metal".toList]

/- ### Supporting lemmas for the collector -/

theorem splitLastDot_append_dot_a (xs : List Char) :
    splitLastDot (xs ++ ".a".toList) = some xs := by
  induction xs with
  | nil => rfl
  | cons c rest ih =>
    have hstep : splitLastDot ((c :: rest) ++ ".a".toList)
        = match splitLastDot (rest ++ ".a".toList) with
          | some st => some (c :: st)
          | none => if c = '.' then some [] else none := rfl
    rw [hstep, ih]

theorem fileStem_eq_of_splitLastDot_cons {s st : List Char} {c : Char}
    (h : splitLastDot s = some (c :: st)) : fileStem s = c :: st := by
  unfold fileStem
  rw [h]

/- ### Claim theorems: ArtifactCollector and link targets (C2, C3, C4, C9) -/

/-- Claim C9: for a bare archive stem lacking the `lib` prefix, normalizing
it to `lib<stem>.a` (the rename `extract_lib_names` performs) and then
stripping the `lib` prefix from the resulting file stem recovers the
original logical name. -/
theorem c9_bare_archive_roundtrip (stem : List Char)
    (_hbare : "lib".toList.isPrefixOf stem = false) :
    stripLib (fileStem ("lib".toList ++ stem ++ ".a".toList)) = stem := by
  have hshape : "lib".toList ++ stem = 'l' :: ("ib".toList ++ stem) := rfl
  have hsplit : splitLastDot (("lib".toList ++ stem) ++ ".a".toList)
      = some ('l' :: ("ib".toList ++ stem)) := by
    rw [← hshape]
    exact splitLastDot_append_dot_a _
  have hfs : fileStem ("lib".toList ++ stem ++ ".a".toList)
      = "lib".toList ++ stem := by
    rw [fileStem_eq_of_splitLastDot_cons hsplit]
    exact hshape.symm
  rw [hfs, stripLib]
  have hpre : "lib".toList.isPrefixOf ("lib".toList ++ stem) = true :=
    List.isPrefixOf_iff_prefix.mpr (List.prefix_append _ _)
  rw [if_pos hpre]
  exact List.drop_left "lib".toList stem

/-- Witness for C9 at the concrete bare name `foo`. -/
theorem c9_bare_archive_roundtrip_witness :
    "lib".toList.isPrefixOf "foo".toList = false ∧
      stripLib (fileStem ("lib".toList ++ "foo".toList ++ ".a".toList))
        = "foo".toList :=
  ⟨by decide, c9_bare_archive_roundtrip "foo".toList (by decide)⟩

/-- Claim C3 counterexample: on the output tree `{libfoo.a, foo.a, bar.so}`
with static mode disabled and dynamic mode enabled, the collector matches
only `*.so`, so it returns only `bar` (not `{foo, bar}`) and performs no
rename at all. -/
theorem c3_dynamic_mode_counterexample :
    extract_lib_names ["bar.so".toList, "foo.a".toList, "libfoo.a".toList] true
        = (["bar".toList], [])
      ∧ "foo".toList ∉
        (extract_lib_names
          ["bar.so".toList, "foo.a".toList, "libfoo.a".toList] true).1 := by
  decide

/-- Claim C3 (amended): with static mode disabled and dynamic mode enabled,
the collector scans only `*.so` files, so on that tree it returns exactly
the logical name `bar` and renames nothing; the `.a` files are not touched. -/
theorem c3_dynamic_mode_actual :
    extract_lib_names ["bar.so".toList, "foo.a".toList, "libfoo.a".toList] true
      = (["bar".toList], []) := by
  decide

/-- Claim C2 counterexample: with reuse mode active and a nominally
successful build whose only discovered library is `ggml`, the pre-filter
emptiness assertion passes and the empty post-filter list is emitted
silently as `.ok []` — no fatal error. -/
theorem c2_empty_after_filter_silent :
    linkTargets true ["ggml".toList] = .ok [] := by
  rfl

/-- Claim C2 (amended): the fatal emptiness check applies to the discovered
list BEFORE the reuse filter — `linkTargets` fails exactly when the raw
discovered list is empty, and an empty post-filter list is not an error. -/
theorem c2_fatal_iff_prefilter_empty (useSharedGgml : Bool) (libs : List (List Char)) :
    linkTargets useSharedGgml libs = .error () ↔ libs = [] := by
  cases libs <;> simp [linkTargets]

/-- Claim C4 counterexample: the reuse filter is a bare `ggml` prefix test,
so the name `ggmlzzz` — outside the reused library family for every
configured base name (`ggml`, `ggml_llama`, `ggml_whisper`) — is
nevertheless excluded from the link targets. -/
theorem c4_prefix_overmatch :
    filterReuse true ["llama".toList, "ggmlzzz".toList] = ["llama".toList]
      ∧ "ggmlzzz".toList ∉ reusedFamily "ggml".toList
      ∧ "ggmlzzz".toList ∉ reusedFamily "ggml_llama".toList
      ∧ "ggmlzzz".toList ∉ reusedFamily "ggml_whisper".toList := by
  decide

/-- Claim C4 (amended): when reuse mode is active the filter excludes
exactly the names starting with the literal prefix `ggml` — a superset of
the reused library family — and keeps every name without that prefix. -/
theorem c4_filter_is_ggml_prefix_test (libs : List (List Char)) (l : List Char) :
    l ∈ filterReuse true libs ↔ l ∈ libs ∧ "ggml".toList.isPrefixOf l = false := by
  simp [filterReuse, List.mem_filter]

/- ### LinkPlanExporter runtime-asset staging (`build.rs` 1270-1295) -/

/-- The three staging destinations of one runtime shared-library asset. -/
inductive Dest where
  | targetDir
  | examples
  | deps
deriving DecidableEq

/-- Outcome of one per-destination staging step.  `copy` is never produced
by the source; it exists to state the claimed hard-link-to-copy fallback. -/
inductive StageAction where
  | skip
  | hardLink
  | panicked
  | copy
deriving DecidableEq

/-- Per-destination staging step (`build.rs` 1276-1278, 1284-1286,
1292-1294): an existing destination file is skipped; otherwise
`std::fs::hard_link(..).unwrap()` is called, whose failure panics — there
is no copy fallback in this loop. -/
def stageAction (dstExists hardLinkFails : Bool) : StageAction :=
  if dstExists then .skip
  else if hardLinkFails then .panicked
  else .hardLink

/-- Destination sequence for one asset (`build.rs` 1270-1295): the primary
target directory, then the adjacent `examples` directory when it exists,
then the test-binaries `deps` directory. -/
def stageDests (examplesExists : Bool) : List Dest :=
  [Dest.targetDir] ++ (if examplesExists then [Dest.examples] else []) ++ [Dest.deps]

/-- Staging of one asset across its destinations when every attempted hard
link succeeds; `hasTarget`/`hasExamples`/`hasDeps` say whether the file is
already present at each destination. -/
def stageAsset (hasTarget hasExamples hasDeps examplesExists : Bool) :
    List (Dest × StageAction) :=
  (stageDests examplesExists).map fun d =>
    (d, stageAction
      (match d with
       | .targetDir => hasTarget
       | .examples => hasExamples
       | .deps => hasDeps) false)

/- ### Claim theorems: staging (C5) -/

/-- Claim C5 counterexample: at a destination that does not yet have the
file, a failing hard link panics the build script — it does not fall back
to a copy as the claim asserts. -/
theorem c5_no_copy_fallback :
    stageAction false true = StageAction.panicked
      ∧ StageAction.panicked ≠ StageAction.copy := by
  decide

/-- Claim C5 (amended): assets are staged into the target directory, the
examples directory when it exists, and the deps directory by hard link
ONLY — no staging step ever produces a copy, a hard-link failure panics
rather than copying, and a destination that already has the file is
skipped unchanged. -/
theorem c5_staging_behaviour :
    (∀ e f : Bool, stageAction e f ≠ StageAction.copy)
      ∧ ∀ ht he hd ee : Bool,
          (∀ p ∈ stageAsset ht he hd ee, p.2 ≠ StageAction.copy
              ∧ p.2 ≠ StageAction.panicked)
          ∧ ((Dest.targetDir, StageAction.hardLink) ∈ stageAsset ht he hd ee ↔ ht = false)
          ∧ ((Dest.targetDir, StageAction.skip) ∈ stageAsset ht he hd ee ↔ ht = true)
          ∧ ((Dest.examples, StageAction.hardLink) ∈ stageAsset ht he hd ee
              ↔ ee = true ∧ he = false)
          ∧ ((Dest.examples, StageAction.skip) ∈ stageAsset ht he hd ee
              ↔ ee = true ∧ he = true)
          ∧ ((Dest.deps, StageAction.hardLink) ∈ stageAsset ht he hd ee ↔ hd = false)
          ∧ ((Dest.deps, StageAction.skip) ∈ stageAsset ht he hd ee ↔ hd = true) := by
  decide

/- ### ConfigPlanner (`build.rs` 200-230, 605-1054) -/

/-- The cargo feature toggles consulted while building the CMake plan. -/
structure Features where
  useSharedGgml : Bool
  namespaceLlama : Bool
  namespaceWhisper : Bool
  mtmd : Bool
  vulkan : Bool
  cuda : Bool
  cudaNoVmm : Bool
  metal : Bool
  openmp : Bool
  native : Bool

/-- The namespace-derived library base name (`build.rs` 214-220, 613):
`ggml_llama` or `ggml_whisper` when a namespace feature is on, else the
default `ggml`. -/
def baseName (f : Features) : String :=
  if f.namespaceLlama then "ggml_llama"
  else if f.namespaceWhisper then "ggml_whisper"
  else "ggml"

/-- Filesystem/environment facts consulted by the `use-shared-ggml` block
(`build.rs` 235-264, 618-625, 695-717, 787-789): the reuse package's
install prefix, whether its CMake config directory exists, its library
directory and whether it and the expected base library file exist, and its
include directory. -/
structure SharedGgmlEnv where
  prefixPath : Option String
  cmakeDirExists : Bool
  libDir : Option String
  libDirExists : Bool
  libFileExists : Bool
  includeDir : Option String

/-- Embedding of Rust `str::starts_with` on `String` values. -/
def startsWithS (s p : String) : Bool := p.toList.isPrefixOf s.toList

/-- Elimination of an optional value into a define list, mirroring the
source's `if let Some(x) = ...` blocks. -/
def optList {α β : Type} : Option α → (α → List β) → List β
  | some a, f => f a
  | none, _ => []

/-- The `config.define` calls of the `use-shared-ggml` block (`build.rs`
610, 620, 625, 715-717, 788) on a Linux host, in source order. -/
def sharedGgmlDefines (base : String) (e : SharedGgmlEnv) : List (String × String) :=
  [("LLAMA_USE_SYSTEM_GGML", "ON")] ++
  optList e.prefixPath (fun p =>
    [("CMAKE_PREFIX_PATH", p)] ++
      (if e.cmakeDirExists then [("ggml_DIR", p ++ "/lib/cmake/ggml")] else [])) ++
  optList e.libDir (fun d =>
    if e.libDirExists && e.libFileExists then
      [("GGML_LIBRARY", d ++ "/lib" ++ base ++ ".so"),
       ("GGML_LIBRARY:FILEPATH", d ++ "/lib" ++ base ++ ".so")]
    else []) ++
  optList e.includeDir (fun i => [("GGML_INCLUDE_DIR", i)])

/-- Whether the classification is an Apple variant
(`matches!(target_os, TargetOs::Apple(_))`). -/
def TargetOs.isApple : TargetOs → Bool
  | .apple _ => true
  | _ => false

/-- Whether the classification is Android
(`matches!(target_os, TargetOs::Android)`). -/
def TargetOs.isAndroid : TargetOs → Bool
  | .android => true
  | _ => false

/-- Android ABI derivation from the triple (`build.rs` 936-950); an
unrecognized Android architecture panics, modelled as an error carrying
the triple. -/
def androidAbi (triple : List Char) : Except (List Char) String :=
  if containsSub triple "aarch64".toList then .ok "arm64-v8a"
  else if containsSub triple "armv7".toList then .ok "armeabi-v7a"
  else if containsSub triple "x86_64".toList then .ok "x86_64"
  else if containsSub triple "i686".toList then .ok "x86"
  else .error triple

/-- The define sequence up to the Android block (`build.rs` 607-896):
the `use-shared-ggml` defines, the always-off packaging switches, the
`mtmd` additions, the `CMAKE_`-prefixed environment pass-through, the
shared/static switch, and the Apple BLAS kill switch. -/
def preDefines (f : Features) (e : SharedGgmlEnv)
    (envVars : List (String × String)) (buildSharedLibs : Bool)
    (os : TargetOs) : List (String × String) :=
  (if f.useSharedGgml then sharedGgmlDefines (baseName f) e else [])
  ++ [("LLAMA_BUILD_TESTS", "OFF"), ("LLAMA_BUILD_EXAMPLES", "OFF"),
      ("LLAMA_BUILD_SERVER", "OFF"), ("LLAMA_BUILD_TOOLS", "OFF"),
      ("LLAMA_CURL", "OFF")]
  ++ (if f.mtmd then [("LLAMA_BUILD_COMMON", "ON"), ("LLAMA_BUILD_TOOLS", "ON")] else [])
  ++ envVars.filter (fun kv => startsWithS kv.1 "CMAKE_")
  ++ [("BUILD_SHARED_LIBS", if buildSharedLibs then "ON" else "OFF")]
  ++ (if os.isApple then [("GGML_BLAS", "OFF")] else [])

/-- The Android-specific defines (`build.rs` 920-980). -/
def androidDefines (androidNdk androidPlatform abi : String) : List (String × String) :=
  [("CMAKE_TOOLCHAIN_FILE", androidNdk ++ "/build/cmake/android.toolchain.cmake"),
   ("ANDROID_PLATFORM", androidPlatform), ("ANDROID_ABI", abi),
   ("GGML_LLAMAFILE", "OFF")]

/-- The define sequence after the Android block (`build.rs` 987-1046): the
Linux/aarch64 baseline pinning, the GPU backend switches, and the OpenMP
switch that ignores the feature on Android. -/
def archDefines (os : TargetOs) (triple : List Char) (f : Features) :
    List (String × String) :=
  (if (os == TargetOs.linux) && containsSub triple "aarch64".toList && !f.native then
     [("GGML_NATIVE", "OFF"), ("GGML_CPU_ARM_ARCH", "armv8-a")]
   else [])
  ++ (if f.vulkan then [("GGML_VULKAN", "ON")] else [])
  ++ (if f.cuda then
        [("GGML_CUDA", "ON")]
          ++ (if f.cudaNoVmm then [("GGML_CUDA_NO_VMM", "ON")] else [])
      else [])
  ++ (if f.openmp && !os.isAndroid then [("GGML_OPENMP", "ON")]
      else [("GGML_OPENMP", "OFF")])

/-- The full ordered `config.define` sequence of one planning run
(`build.rs` 605-1046), as a function of the classification, triple,
features, reuse-package facts, pass-through environment, resolved
shared/static choice, and Android toolchain inputs.  An unsupported
Android architecture is the only modelled panic. -/
def cmakeDefines (os : TargetOs) (triple : List Char) (f : Features)
    (e : SharedGgmlEnv) (envVars : List (String × String))
    (buildSharedLibs : Bool) (androidNdk androidPlatform : String) :
    Except (List Char) (List (String × String)) :=
  if os.isAndroid then
    match androidAbi triple with
    | .error t => .error t
    | .ok abi =>
      .ok (preDefines f e envVars buildSharedLibs os
        ++ androidDefines androidNdk androidPlatform abi
        ++ archDefines os triple f)
  else
    .ok (preDefines f e envVars buildSharedLibs os ++ archDefines os triple f)

/- ### Supporting lemmas for the planner -/

theorem mem_optList {α β : Type} (x : β) (o : Option α) (f : α → List β) :
    x ∈ optList o f ↔ ∃ a, o = some a ∧ x ∈ f a := by
  cases o <;> simp [optList]

theorem mem_ite_nil {α : Type} (x : α) (b : Bool) (l : List α) :
    x ∈ (if b then l else []) ↔ b = true ∧ x ∈ l := by
  cases b <;> simp

theorem mem_ite_or {α : Type} (x : α) (P : Prop) [Decidable P] (l1 l2 : List α) :
    x ∈ (if P then l1 else l2) ↔ (P ∧ x ∈ l1) ∨ (¬P ∧ x ∈ l2) := by
  by_cases h : P <;> simp [h]

theorem sharedGgmlDefines_key_ne {k v : String} (b : String) (e : SharedGgmlEnv)
    (h1 : k ≠ "LLAMA_USE_SYSTEM_GGML") (h2 : k ≠ "CMAKE_PREFIX_PATH")
    (h3 : k ≠ "ggml_DIR") (h4 : k ≠ "GGML_LIBRARY")
    (h5 : k ≠ "GGML_LIBRARY:FILEPATH") (h6 : k ≠ "GGML_INCLUDE_DIR") :
    (k, v) ∉ sharedGgmlDefines b e := by
  intro hm
  simp [sharedGgmlDefines, mem_optList, mem_ite_nil, Prod.mk.injEq,
    h1, h2, h3, h4, h5, h6] at hm

theorem preDefines_key_ne {k v : String} (f : Features) (e : SharedGgmlEnv)
    (envVars : List (String × String)) (bsl : Bool) (os : TargetOs)
    (h1 : k ≠ "LLAMA_USE_SYSTEM_GGML") (h2 : k ≠ "CMAKE_PREFIX_PATH")
    (h3 : k ≠ "ggml_DIR") (h4 : k ≠ "GGML_LIBRARY")
    (h5 : k ≠ "GGML_LIBRARY:FILEPATH") (h6 : k ≠ "GGML_INCLUDE_DIR")
    (h7 : k ≠ "LLAMA_BUILD_TESTS") (h8 : k ≠ "LLAMA_BUILD_EXAMPLES")
    (h9 : k ≠ "LLAMA_BUILD_SERVER") (h10 : k ≠ "LLAMA_BUILD_TOOLS")
    (h11 : k ≠ "LLAMA_CURL") (h12 : k ≠ "LLAMA_BUILD_COMMON")
    (hcm : startsWithS k "CMAKE_" = false) (h13 : k ≠ "BUILD_SHARED_LIBS")
    (h14 : k ≠ "GGML_BLAS") :
    (k, v) ∉ preDefines f e envVars bsl os := by
  intro hm
  have hshared : ∀ w : String, (k, w) ∉ sharedGgmlDefines (baseName f) e :=
    fun w => sharedGgmlDefines_key_ne (baseName f) e h1 h2 h3 h4 h5 h6
  simp [preDefines, mem_ite_nil, List.mem_filter, Prod.mk.injEq,
    hshared v, h7, h8, h9, h10, h11, h12, hcm, h13, h14] at hm

theorem androidDefines_key_ne {k v : String} (ndk ap abi : String)
    (h1 : k ≠ "CMAKE_TOOLCHAIN_FILE") (h2 : k ≠ "ANDROID_PLATFORM")
    (h3 : k ≠ "ANDROID_ABI") (h4 : k ≠ "GGML_LLAMAFILE") :
    (k, v) ∉ androidDefines ndk ap abi := by
  intro hm
  simp [androidDefines, Prod.mk.injEq, h1, h2, h3, h4] at hm

/- ### Claim theorems: ConfigPlanner (C8, C10) -/

/-- Claim C8: on a Linux target whose triple contains `aarch64`, the plan
contains `GGML_NATIVE=OFF` and `GGML_CPU_ARM_ARCH=armv8-a` exactly when the
`native` feature is off; when `native` is on, neither key is defined at all
(`build.rs` 987-995). -/
theorem c8_linux_aarch64_baseline (triple : List Char) (f : Features)
    (e : SharedGgmlEnv) (envVars : List (String × String))
    (buildSharedLibs : Bool) (androidNdk androidPlatform : String)
    (ds : List (String × String))
    (hok : cmakeDefines TargetOs.linux triple f e envVars buildSharedLibs
      androidNdk androidPlatform = Except.ok ds)
    (haarch : containsSub triple "aarch64".toList = true) :
    (f.native = false →
        ("GGML_NATIVE", "OFF") ∈ ds ∧ ("GGML_CPU_ARM_ARCH", "armv8-a") ∈ ds)
      ∧ (f.native = true →
        ∀ v : String, ("GGML_NATIVE", v) ∉ ds ∧ ("GGML_CPU_ARM_ARCH", v) ∉ ds) := by
  have hds : ds = preDefines f e envVars buildSharedLibs TargetOs.linux
      ++ archDefines TargetOs.linux triple f := by
    simp [cmakeDefines, TargetOs.isAndroid] at hok
    exact hok.symm
  subst hds
  have haarch2 : containsSub triple ['a', 'a', 'r', 'c', 'h', '6', '4'] = true :=
    haarch
  constructor
  · intro hnat
    constructor <;>
      simp [List.mem_append, archDefines, mem_ite_nil, mem_ite_or,
        haarch2, hnat]
  · intro hnat v
    have hp1 : ("GGML_NATIVE", v)
        ∉ preDefines f e envVars buildSharedLibs TargetOs.linux :=
      preDefines_key_ne f e envVars buildSharedLibs TargetOs.linux
        (by decide) (by decide) (by decide) (by decide) (by decide) (by decide)
        (by decide) (by decide) (by decide) (by decide) (by decide) (by decide)
        (by decide) (by decide) (by decide)
    have hp2 : ("GGML_CPU_ARM_ARCH", v)
        ∉ preDefines f e envVars buildSharedLibs TargetOs.linux :=
      preDefines_key_ne f e envVars buildSharedLibs TargetOs.linux
        (by decide) (by decide) (by decide) (by decide) (by decide) (by decide)
        (by decide) (by decide) (by decide) (by decide) (by decide) (by decide)
        (by decide) (by decide) (by decide)
    constructor <;>
      simp [List.mem_append, archDefines, mem_ite_nil, mem_ite_or,
        TargetOs.isAndroid, hnat, hp1, hp2, Prod.mk.injEq]

/-- Witness for C8 at a concrete Linux/aarch64 planning run with the
`native` feature absent. -/
theorem c8_linux_aarch64_baseline_witness :
    ("GGML_NATIVE", "OFF")
        ∈ ([("LLAMA_BUILD_TESTS", "OFF"), ("LLAMA_BUILD_EXAMPLES", "OFF"),
            ("LLAMA_BUILD_SERVER", "OFF"), ("LLAMA_BUILD_TOOLS", "OFF"),
            ("LLAMA_CURL", "OFF"), ("BUILD_SHARED_LIBS", "OFF"),
            ("GGML_NATIVE", "OFF"), ("GGML_CPU_ARM_ARCH", "armv8-a"),
            ("GGML_OPENMP", "OFF")] : List (String × String))
      ∧ ("GGML_CPU_ARM_ARCH", "armv8-a")
        ∈ ([("LLAMA_BUILD_TESTS", "OFF"), ("LLAMA_BUILD_EXAMPLES", "OFF"),
            ("LLAMA_BUILD_SERVER", "OFF"), ("LLAMA_BUILD_TOOLS", "OFF"),
            ("LLAMA_CURL", "OFF"), ("BUILD_SHARED_LIBS", "OFF"),
            ("GGML_NATIVE", "OFF"), ("GGML_CPU_ARM_ARCH", "armv8-a"),
            ("GGML_OPENMP", "OFF")] : List (String × String)) :=
  (c8_linux_aarch64_baseline "aarch64-unknown-linux-gnu".toList
    (Features.mk false false false false false false false false false false)
    (SharedGgmlEnv.mk none false none false false none) [] false "" ""
    [("LLAMA_BUILD_TESTS", "OFF"), ("LLAMA_BUILD_EXAMPLES", "OFF"),
     ("LLAMA_BUILD_SERVER", "OFF"), ("LLAMA_BUILD_TOOLS", "OFF"),
     ("LLAMA_CURL", "OFF"), ("BUILD_SHARED_LIBS", "OFF"),
     ("GGML_NATIVE", "OFF"), ("GGML_CPU_ARM_ARCH", "armv8-a"),
     ("GGML_OPENMP", "OFF")] rfl (by decide)).1 rfl

/-- Claim C10: for every feature combination and target classification, a
successful plan has `GGML_OPENMP=ON` exactly when the `openmp` feature is
on and the target is not Android, and `GGML_OPENMP=OFF` otherwise — on
Android the `openmp` feature is silently ignored (`build.rs` 1042-1046). -/
theorem c10_openmp_on_iff (os : TargetOs) (triple : List Char) (f : Features)
    (e : SharedGgmlEnv) (envVars : List (String × String))
    (buildSharedLibs : Bool) (androidNdk androidPlatform : String)
    (ds : List (String × String))
    (hok : cmakeDefines os triple f e envVars buildSharedLibs
      androidNdk androidPlatform = Except.ok ds) :
    ((("GGML_OPENMP", "ON") ∈ ds) ↔ (f.openmp && !os.isAndroid) = true)
      ∧ ((("GGML_OPENMP", "OFF") ∈ ds) ↔ (f.openmp && !os.isAndroid) = false) := by
  have hpre : ∀ w : String, ("GGML_OPENMP", w)
      ∉ preDefines f e envVars buildSharedLibs os :=
    fun w => preDefines_key_ne f e envVars buildSharedLibs os
      (by decide) (by decide) (by decide) (by decide) (by decide) (by decide)
      (by decide) (by decide) (by decide) (by decide) (by decide) (by decide)
      (by decide) (by decide) (by decide)
  cases hA : os.isAndroid with
  | false =>
    have hds : ds = preDefines f e envVars buildSharedLibs os
        ++ archDefines os triple f := by
      simp [cmakeDefines, hA] at hok
      exact hok.symm
    subst hds
    cases homp : f.openmp <;>
      simp [List.mem_append, archDefines, mem_ite_nil, hA, homp,
        hpre "ON", hpre "OFF", Prod.mk.injEq]
  | true =>
    rw [cmakeDefines, if_pos hA] at hok
    cases habi : androidAbi triple with
    | error t =>
      rw [habi] at hok
      exact absurd hok (by simp)
    | ok abi =>
      rw [habi] at hok
      have hand : ∀ w : String, ("GGML_OPENMP", w)
          ∉ androidDefines androidNdk androidPlatform abi :=
        fun w => androidDefines_key_ne androidNdk androidPlatform abi
          (by decide) (by decide) (by decide) (by decide)
      have hds : ds = preDefines f e envVars buildSharedLibs os
          ++ androidDefines androidNdk androidPlatform abi
          ++ archDefines os triple f := by
        simpa using hok.symm
      subst hds
      simp [List.mem_append, archDefines, mem_ite_nil, hA,
        hpre "ON", hpre "OFF", hand "ON", hand "OFF", Prod.mk.injEq]

/-- Witness for C10 at a concrete Android planning run with the `openmp`
feature enabled: the plan still carries `GGML_OPENMP=OFF`. -/
theorem c10_openmp_on_iff_witness :
    ("GGML_OPENMP", "OFF")
      ∈ ([("LLAMA_BUILD_TESTS", "OFF"), ("LLAMA_BUILD_EXAMPLES", "OFF"),
          ("LLAMA_BUILD_SERVER", "OFF"), ("LLAMA_BUILD_TOOLS", "OFF"),
          ("LLAMA_CURL", "OFF"), ("BUILD_SHARED_LIBS", "OFF"),
          ("CMAKE_TOOLCHAIN_FILE", "n/build/cmake/android.toolchain.cmake"),
          ("ANDROID_PLATFORM", "android-28"), ("ANDROID_ABI", "arm64-v8a"),
          ("GGML_LLAMAFILE", "OFF"), ("GGML_OPENMP", "OFF")]
        : List (String × String)) :=
  (c10_openmp_on_iff TargetOs.android "aarch64-linux-android".toList
    (Features.mk false false false false false false false false true false)
    (SharedGgmlEnv.mk none false none false false none) [] false "n" "android-28"
    [("LLAMA_BUILD_TESTS", "OFF"), ("LLAMA_BUILD_EXAMPLES", "OFF"),
     ("LLAMA_BUILD_SERVER", "OFF"), ("LLAMA_BUILD_TOOLS", "OFF"),
     ("LLAMA_CURL", "OFF"), ("BUILD_SHARED_LIBS", "OFF"),
     ("CMAKE_TOOLCHAIN_FILE", "n/build/cmake/android.toolchain.cmake"),
     ("ANDROID_PLATFORM", "android-28"), ("ANDROID_ABI", "arm64-v8a"),
     ("GGML_LLAMAFILE", "OFF"), ("GGML_OPENMP", "OFF")] rfl).2.mpr (by decide)
